import Mathlib

/-!
# Verification of `edgar/httprequests.py`

A shallow embedding of the rate-limiting + retry + redirect-following request
pipeline of `src/edgar/httprequests.py`, together with theorems settling the
frozen claims about it.

Modelling conventions:
* Python `int` fields are modelled as `ℤ`.
* Monotonic clock readings (Python floats) are modelled as `ℤ`, an abstract
  tick count: the claims under verification depend only on the ordered
  additive structure of time, and integer time keeps every definition
  kernel-evaluable (rational arithmetic does not reduce definitionally
  here).  One tick is the `Throttler`'s polling interval
  (`sleep_interval=0.1` in the source); `time_window` seconds are
  `time_window` ticks.
* Raising an exception is modelled as returning `Except.error`; the exception
  classes of the source become constructors of `PyErr`.
* The network transport (`httpx`) is an external collaborator; it is modelled
  as a script of events consumed one per transport call.
* Mutable state (`Throttler.request_timestamps`, the shared headers dict, the
  transport) is threaded explicitly through a `PipeState`.
-/

set_option linter.unusedVariables false

namespace EdgarHttp

/-! ## Module constants (source lines 16–19) -/

def attempts : ℕ := 6

def retry_timeout : ℚ := 40

def wait_initial : ℚ := 1/10

def max_requests_per_second : ℤ := 8

/-! ## Exceptions

`TooManyRequestsError` (line 22) and `IdentityNotSetException` (line 29) both
derive from plain `Exception`; in particular neither is an
`httpx.RequestError`.  `requestError` stands for `httpx.RequestError` raised
by the transport; `valueError` for Python's `ValueError`; `keyError` for a
missing dict key; `fuelExhausted` marks exhaustion of the explicit fuel that
makes the (unbounded) recursion and polling loops of the source total in the
embedding; `scriptExhausted` marks a transport script that ran out of events
(both artefacts of the embedding, never of the source). -/

inductive PyErr where
  | requestError : String → PyErr
  | tooManyRequests : String → PyErr
  | identityNotSet : PyErr
  | valueError : String → PyErr
  | keyError : String → PyErr
  | scriptExhausted : PyErr
  | fuelExhausted : PyErr
  deriving DecidableEq, Repr

/-- `stamina.retry` is configured with `on=httpx.RequestError`: only transport
errors are transient. -/
def isRequestError : PyErr → Bool
  | .requestError _ => true
  | _ => false

/-! ## RequestRate (source lines 33–45) -/

structure RequestRate where
  max_requests : ℤ
  time_window : ℤ
  deriving DecidableEq, Repr

/-- `RequestRate.__init__` (lines 38–45): validates both parameters, raising
`ValueError` on a non-positive one, then stores them unchanged.  The Lean
structure is immutable, as is the Python object by usage (no method writes
to the fields). -/
def RequestRate.init (max_requests time_window : ℤ) : Except String RequestRate :=
  if max_requests ≤ 0 then .error "max_requests must be a positive integer"
  else if time_window ≤ 0 then .error "time_window must be a positive integer"
  else .ok ⟨max_requests, time_window⟩

/-! ## Throttler (source lines 48–98) -/

/-- The `while` loop of `get_ticket` (lines 67–69): pop timestamps from the
front of the deque while the front one is `≤ current_time - time_window`. -/
def purge (time_window now : ℤ) : List ℤ → List ℤ
  | [] => []
  | t :: rest => if t ≤ now - time_window then purge time_window now rest else t :: rest

/-- `Throttler.get_ticket` (lines 62–75): under the lock, read the clock,
purge expired timestamps, and admit (appending the current time at the back)
iff fewer than `max_requests` timestamps remain. -/
def get_ticket (rate : RequestRate) (now : ℤ) (ts : List ℤ) : Bool × List ℤ :=
  let ts2 := purge rate.time_window now ts
  if (ts2.length : ℤ) < rate.max_requests then (true, ts2 ++ [now]) else (false, ts2)

/-- `Throttler.wait_for_ticket` (lines 77–79): poll `get_ticket`, sleeping
`sleep_interval` between failed polls (the clock advances by the sleep).
The `fuel` bound is an artefact of the embedding; the source loop is
unbounded.  Returns the admission time and the new deque. -/
def wait_for_ticket (rate : RequestRate) (sleep_interval : ℤ) :
    ℕ → ℤ → List ℤ → Option (ℤ × List ℤ)
  | 0, _, _ => none
  | fuel + 1, now, ts =>
    match get_ticket rate now ts with
    | (true, ts2) => some (now, ts2)
    | (false, ts2) => wait_for_ticket rate sleep_interval fuel (now + sleep_interval) ts2

/-- One `get_ticket` call at time `t`, also recording admitted timestamps in a
history list (`st = (deque, admission history)`).  The history is a ghost
variable: it does not influence behaviour. -/
def ticketStep (rate : RequestRate) (st : List ℤ × List ℤ) (t : ℤ) : List ℤ × List ℤ :=
  match get_ticket rate t st.1 with
  | (true, dq) => (dq, st.2 ++ [t])
  | (false, dq) => (dq, st.2)

/-- A sequence of `get_ticket` calls at the given clock readings, starting
from a fresh `Throttler` (empty deque, line 56). -/
def runTickets (rate : RequestRate) (times : List ℤ) : List ℤ × List ℤ :=
  times.foldl (ticketStep rate) ([], [])

/-! ## Responses and the transport collaborator -/

/-- An `httpx` response: status code, header mapping, body. -/
structure Response where
  status_code : ℕ
  headers : List (String × String)
  body : String
  deriving DecidableEq, Repr

/-- Python dict lookup `d[k]` / `d.get(k)` over an insertion-ordered mapping. -/
def headerGet (hs : List (String × String)) (k : String) : Option String :=
  match hs.find? (fun p => p.1 == k) with
  | some p => some p.2
  | none => none

/-- Python dict assignment `d[k] = v`: overwrite the entry in place if the key
exists, else append it at the end (insertion order). -/
def setHeader (hs : List (String × String)) (k v : String) : List (String × String) :=
  if hs.any (fun p => p.1 == k) then
    hs.map (fun p => if p.1 == k then (k, v) else p)
  else hs ++ [(k, v)]

/-- `is_redirect` (source lines 127–128). -/
def is_redirect (r : Response) : Bool :=
  r.status_code == 301 || r.status_code == 302

/-- One scripted behaviour of the external transport: either it produces a
response or it raises `httpx.RequestError`. -/
inductive TransportEvent where
  | resp : Response → TransportEvent
  | netError : String → TransportEvent
  deriving DecidableEq, Repr

/-! ## Pipeline state

All mutable state threaded through one pipeline call:
* `script` — the remaining transport events (the external collaborator);
* `now` — the monotonic clock;
* `deque` — `Throttler.request_timestamps` of this entry point's `Throttler`
  (each decorated entry point owns its own, created by `throttle_requests`);
* `total_calls`, `peak_call_rate` — the informational metrics
  (`update_metrics`, lines 81–84);
* `headerObj` — the one headers dict object in play (the caller's, or the
  fresh `{}` created by `with_identity` when the caller passed none); Python
  mutates it in place, modelled as updating this cell;
* `admissionLog` — ghost history of granted tickets (admission timestamps);
* `attemptCount` — ghost count of invocations made by the retry layer;
* `transportLog` — ghost history of `(url, headers)` given to the transport. -/
structure PipeState where
  script : List TransportEvent
  now : ℤ
  deque : List ℤ
  total_calls : ℕ
  peak_call_rate : ℚ
  headerObj : List (String × String)
  admissionLog : List ℤ
  attemptCount : ℕ
  transportLog : List (String × List (String × String))
  deriving Repr

/-- The throttler shared by the decorated entry points' decorations:
`throttle_requests(requests_per_second=max_requests_per_second)` builds
`RequestRate(max_requests=8, time_window=1)` (line 106). -/
def edgarRate : RequestRate := ⟨max_requests_per_second, 1⟩

/-- A pipeline call's arguments: `url`, `identity`, `identity_callable`
(a Python callable returning the identity or `None`), and whether `kwargs`
carries a `headers` entry (pointing at the `headerObj` cell). -/
structure GetArgs where
  url : String
  identity : Option String
  identity_callable : Option (Unit → Option String)
  headersPassed : Bool

/-! ## Identity resolution (`with_identity`, source lines 131–148) -/

/-- Lines 134–138: explicit `identity` wins; otherwise, when
`identity_callable` is supplied, its result is used (the environment variable
is *not* consulted in that branch); otherwise `os.environ.get("EDGAR_IDENTITY")`. -/
def resolve_identity (identity : Option String)
    (identity_callable : Option (Unit → Option String)) (env : Option String) :
    Option String :=
  match identity with
  | some i => some i
  | none =>
    match identity_callable with
    | some f => f ()
    | none => env

/-- The precedence chain as the claim words it: the first present value among
the explicit identity, the callable's result, and the environment variable.
Stated from the claim's words only, for comparison with `resolve_identity`. -/
def resolve_identity_claimOrder (identity : Option String)
    (identity_callable : Option (Unit → Option String)) (env : Option String) :
    Option String :=
  match identity with
  | some i => some i
  | none =>
    match identity_callable.bind (fun f => f ()) with
    | some i => some i
    | none => env

/-- The body of `with_identity`'s wrapper up to the inner call (lines 133–144):
resolve the identity (raising `IdentityNotSetException` when resolution gives
nothing, before any rate-limiter or transport interaction), then write
`headers["User-Agent"] = identity` into the caller's headers dict (creating a
fresh `{}` when `kwargs` has none) and store it back into `kwargs`.
Returns the resolved identity and the updated state. -/
def with_identity_step (env : Option String) (identity : Option String)
    (identity_callable : Option (Unit → Option String)) (headersPassed : Bool)
    (st : PipeState) : Except PyErr (String × PipeState) :=
  match resolve_identity identity identity_callable env with
  | none => .error .identityNotSet
  | some idv =>
    .ok (idv, { st with
      headerObj := setHeader (if headersPassed then st.headerObj else []) "User-Agent" idv })

/-! ## Throttling step (decorator wrapper, source lines 116–120) -/

/-- `throttler.wait_for_ticket()` inside the decorator wrapper: block (poll
with the default `sleep_interval=0.1`, one tick of the integer clock) until
a ticket is granted; the granted admission time is appended to the ghost
`admissionLog`. -/
def throttle_step (st : PipeState) : Option PipeState :=
  match wait_for_ticket edgarRate 1 1000 st.now st.deque with
  | none => none
  | some (tNow, dq) =>
    some { st with now := tNow, deque := dq, admissionLog := st.admissionLog ++ [tNow] }

/-- `Throttler.update_metrics` (lines 81–84), run after the wrapped function
returns without raising. -/
def update_metrics (st : PipeState) : PipeState :=
  { st with
    total_calls := st.total_calls + 1,
    peak_call_rate := max st.peak_call_rate ((st.deque.length : ℚ) / (edgarRate.time_window : ℚ)) }

/-! ## Transport call -/

/-- One call into the external transport for `url`, forwarding the current
headers object; consumes the next scripted event.  `client.get`/`post`/
`stream` raising `httpx.RequestError` is the `netError` case. -/
def transportCall (url : String) (st : PipeState) : Except PyErr Response × PipeState :=
  match st.script with
  | [] => (.error .scriptExhausted, st)
  | ev :: rest =>
    let st2 := { st with script := rest, transportLog := st.transportLog ++ [(url, st.headerObj)] }
    match ev with
    | .netError m => (.error (.requestError m), st2)
    | .resp r => (.ok r, st2)

/-! ## `get_with_retry` (source lines 151–177)

The decorated function is `retry(with_identity(throttle_requests(body)))`.
One invocation of `get_go env fuel retries args st` is one attempt of the
decorated chain with `retries` invocations of the retry budget still
available (`attempts = 6` at entry, per `@retry(..., attempts=attempts)`):
it runs `with_identity`'s wrapper, the throttle wrapper, and the body; on an
error matching `on=httpx.RequestError` with budget remaining it re-attempts
(the `stamina` retry loop, an external dependency not in `src/`, modelled
from the spec's §4.3: bounded attempts, only transient errors re-invoked,
backoff waits and overall timeout abstracted).  The redirect branch
(lines 174–176) re-invokes the decorated function itself — fresh identity
resolution, a fresh ticket, and a fresh retry budget per hop; an
`httpx.RequestError` escaping the inner hop's budget reaches the outer
attempt's body and is hence retried by the outer budget, exactly as the
nested decorators behave.  The recursion of the source is unbounded in depth;
`fuel` bounds it in the embedding (theorems supply enough fuel for the
scripts at hand). -/
def get_go (env : Option String) :
    ℕ → ℕ → GetArgs → PipeState → Except PyErr Response × PipeState
  | 0, _, _, st => (.error .fuelExhausted, st)
  | fuel + 1, retries, args, st =>
    let st1 := { st with attemptCount := st.attemptCount + 1 }
    let step : Except PyErr Response × PipeState :=
      match with_identity_step env args.identity args.identity_callable args.headersPassed st1 with
      | .error e => (.error e, st1)
      | .ok (idv, st2) =>
        match throttle_step st2 with
        | none => (.error .fuelExhausted, st2)
        | some st3 =>
          match transportCall args.url st3 with
          | (.error e, st4) => (.error e, st4)
          | (.ok r, st4) =>
            if r.status_code == 429 then (.error (.tooManyRequests args.url), st4)
            else if is_redirect r then
              match headerGet r.headers "Location" with
              | some loc =>
                get_go env fuel attempts
                  { args with url := loc, identity := some idv, headersPassed := true } st4
              | none => (.error (.keyError "Location"), st4)
            else (.ok r, st4)
    match step with
    | (.ok r, st5) => (.ok r, update_metrics st5)
    | (.error e, st5) =>
      if isRequestError e && decide (1 < retries) then get_go env fuel (retries - 1) args st5
      else (.error e, st5)

/-- The decorated `get_with_retry` (lines 151–177): a call enters with the
full retry budget `attempts`. -/
def get_with_retry_fuel (env : Option String) (fuel : ℕ) (args : GetArgs)
    (st : PipeState) : Except PyErr Response × PipeState :=
  get_go env fuel attempts args st

/-- `get_with_retry_async` (lines 180–206): identical control flow modulo
`await`, so it is embedded by the same function. -/
def get_with_retry_async_fuel : Option String →
    ℕ → GetArgs → PipeState → Except PyErr Response × PipeState :=
  get_with_retry_fuel

/-! ## `post_with_retry` (source lines 240–269)

Identical to `get_with_retry` except that the transport call is
`client.post(url, data=data, json=json, **kwargs)` and the redirect re-invokes
with `data` and `json` preserved (line 267). -/

structure PostArgs where
  url : String
  data : Option String
  json : Option String
  identity : Option String
  identity_callable : Option (Unit → Option String)
  headersPassed : Bool

def post_go (env : Option String) :
    ℕ → ℕ → PostArgs → PipeState → Except PyErr Response × PipeState
  | 0, _, _, st => (.error .fuelExhausted, st)
  | fuel + 1, retries, args, st =>
    let st1 := { st with attemptCount := st.attemptCount + 1 }
    let step : Except PyErr Response × PipeState :=
      match with_identity_step env args.identity args.identity_callable args.headersPassed st1 with
      | .error e => (.error e, st1)
      | .ok (idv, st2) =>
        match throttle_step st2 with
        | none => (.error .fuelExhausted, st2)
        | some st3 =>
          match transportCall args.url st3 with
          | (.error e, st4) => (.error e, st4)
          | (.ok r, st4) =>
            if r.status_code == 429 then (.error (.tooManyRequests args.url), st4)
            else if is_redirect r then
              match headerGet r.headers "Location" with
              | some loc =>
                post_go env fuel attempts
                  { args with url := loc, identity := some idv, headersPassed := true } st4
              | none => (.error (.keyError "Location"), st4)
            else (.ok r, st4)
    match step with
    | (.ok r, st5) => (.ok r, update_metrics st5)
    | (.error e, st5) =>
      if isRequestError e && decide (1 < retries) then post_go env fuel (retries - 1) args st5
      else (.error e, st5)

/-- The decorated `post_with_retry` (lines 240–269). -/
def post_with_retry_fuel (env : Option String) (fuel : ℕ) (args : PostArgs)
    (st : PipeState) : Except PyErr Response × PipeState :=
  post_go env fuel attempts args st

/-- `post_with_retry_async` (lines 272–304): identical control flow modulo
`await`, so it is embedded by the same function. -/
def post_with_retry_async_fuel : Option String →
    ℕ → PostArgs → PipeState → Except PyErr Response × PipeState :=
  post_with_retry_fuel

/-! ## `stream_with_retry` (source lines 209–237)

`stream_with_retry` is a *generator function*.  Its decorators wrap a plain
function call: calling the decorated name runs `with_identity`'s wrapper and
the throttle wrapper (so identity resolution and ticket acquisition happen at
call time), but creating the generator does not run its body, so the
`stamina` wrapper observes no exception from the body and never re-invokes
it; `update_metrics` also runs at call time.  The body (lines 228–237) runs
when the generator is iterated: it makes the transport call, raises
`TooManyRequestsError` on 429 (at iteration time, outside every decorator),
and on a redirect executes `yield stream_with_retry(...)` — the item yielded
is the inner decorated call's *generator object* itself, not its elements
(`yield`, not `yield from`); the inner generator is created (consuming a
ticket) but not iterated. -/

/-- An element of the sequence yielded by the stream generator: either the
response object (line 237) or, on the redirect path (lines 233–235), the
un-iterated generator object produced by the recursive decorated call,
identified here by its pending URL. -/
inductive StreamItem where
  | response : Response → StreamItem
  | nestedGenerator : String → StreamItem
  deriving DecidableEq, Repr

def StreamItem.isResponse : StreamItem → Bool
  | .response _ => true
  | .nestedGenerator _ => false

/-- Calling the decorated `stream_with_retry`: the call-time effects of the
wrappers (identity resolution, headers mutation, ticket acquisition, metrics
update) run; the generator, capturing the wrapper-supplied arguments, is
returned unexecuted.  The only call-time exception is
`IdentityNotSetException`, which `stamina` does not retry
(`on=httpx.RequestError`). -/
def stream_with_retry_call (env : Option String) (args : GetArgs) (st : PipeState) :
    Except PyErr GetArgs × PipeState :=
  match with_identity_step env args.identity args.identity_callable args.headersPassed st with
  | .error e => (.error e, st)
  | .ok (idv, st1) =>
    match throttle_step st1 with
    | none => (.error .fuelExhausted, st1)
    | some st2 =>
      (.ok { args with identity := some idv, headersPassed := true }, update_metrics st2)

/-- Iterating the generator returned by `stream_with_retry` to exhaustion:
runs the body (lines 228–237).  Exceptions raised here (the 429 path, or a
transport `httpx.RequestError`) propagate directly to the consumer — the
retry decorator wrapped only the call that created the generator, not the
iteration.  On a redirect, the recursive decorated call is made (call-time
effects included) and its generator object is yielded as the single item. -/
def stream_iterate (env : Option String) (gen : GetArgs) (st : PipeState) :
    Except PyErr (List StreamItem) × PipeState :=
  match transportCall gen.url st with
  | (.error e, st2) => (.error e, st2)
  | (.ok r, st2) =>
    if r.status_code == 429 then (.error (.tooManyRequests gen.url), st2)
    else if is_redirect r then
      match headerGet r.headers "Location" with
      | some loc =>
        match stream_with_retry_call env { gen with url := loc } st2 with
        | (.error e, st3) => (.error e, st3)
        | (.ok _, st3) => (.ok [.nestedGenerator loc], st3)
      | none => (.error (.keyError "Location"), st2)
    else (.ok [.response r], st2)

/-! ## Initial state and the per-entry-point throttler registry -/

/-- A fresh per-process state: fresh `Throttler` (empty deque, zero metrics),
no headers object yet, clock at 0, and the given transport script. -/
def initState (script : List TransportEvent) : PipeState :=
  { script := script, now := 0, deque := [], total_calls := 0, peak_call_rate := 0,
    headerObj := [], admissionLog := [], attemptCount := 0, transportLog := [] }

/-- The five decorated entry points.  `throttle_requests(...)` runs once per
decoration (lines 104–124), so each entry point owns its own `Throttler`
(the module-level `_throttler_instances` dict on line 101 is never used). -/
inductive EntryPoint where
  | getSync | getAsync | streamSync | postSync | postAsync
  deriving DecidableEq, Repr

/-- The five independent `Throttler.request_timestamps` deques, one per
decorated entry point. -/
structure ThrottlerRegistry where
  get_sync : List ℤ
  get_async : List ℤ
  stream_sync : List ℤ
  post_sync : List ℤ
  post_async : List ℤ
  deriving DecidableEq, Repr

def ThrottlerRegistry.deq (reg : ThrottlerRegistry) : EntryPoint → List ℤ
  | .getSync => reg.get_sync
  | .getAsync => reg.get_async
  | .streamSync => reg.stream_sync
  | .postSync => reg.post_sync
  | .postAsync => reg.post_async

/-- A `get_ticket` call on the `Throttler` owned by entry point `e`: only
`e`'s deque is touched. -/
def registryAdmit (e : EntryPoint) (now : ℤ) (reg : ThrottlerRegistry) :
    Bool × ThrottlerRegistry :=
  match e with
  | .getSync =>
    ((get_ticket edgarRate now reg.get_sync).1,
      { reg with get_sync := (get_ticket edgarRate now reg.get_sync).2 })
  | .getAsync =>
    ((get_ticket edgarRate now reg.get_async).1,
      { reg with get_async := (get_ticket edgarRate now reg.get_async).2 })
  | .streamSync =>
    ((get_ticket edgarRate now reg.stream_sync).1,
      { reg with stream_sync := (get_ticket edgarRate now reg.stream_sync).2 })
  | .postSync =>
    ((get_ticket edgarRate now reg.post_sync).1,
      { reg with post_sync := (get_ticket edgarRate now reg.post_sync).2 })
  | .postAsync =>
    ((get_ticket edgarRate now reg.post_async).1,
      { reg with post_async := (get_ticket edgarRate now reg.post_async).2 })

def emptyRegistry : ThrottlerRegistry := ⟨[], [], [], [], []⟩

/-- Eight `get_ticket` calls through each of the five entry points, all at
clock time 0 (hence all inside one trailing window), counting admissions. -/
def registryBurst : ℕ × ThrottlerRegistry :=
  (([EntryPoint.getSync, .getAsync, .streamSync, .postSync, .postAsync].map
      (fun e => List.replicate 8 e)).flatten).foldl
    (fun acc e =>
      match registryAdmit e 0 acc.2 with
      | (true, reg) => (acc.1 + 1, reg)
      | (false, reg) => (acc.1, reg))
    (0, emptyRegistry)

/-! ## Concrete scenarios used by several claims -/

/-- A `302` redirect pointing at `"B"`. -/
def loc302 : Response := ⟨302, [("Location", "B")], ""⟩

/-- A plain success response. -/
def ok200 : Response := ⟨200, [], "body"⟩

/-- A `429 Too Many Requests` response. -/
def r429 : Response := ⟨429, [], ""⟩

/-- The mocked transport of the redirect scenarios: one `302` with
`Location: B`, then a `200` on the request to `B`. -/
def twoHopScript : List TransportEvent := [.resp loc302, .resp ok200]

/-- Initial state of the redirect scenarios: fresh throttler, caller-supplied
headers dict `{"Accept": "text/html"}`. -/
def twoHopInit : PipeState :=
  { initState twoHopScript with headerObj := [("Accept", "text/html")] }

/-- `get_with_retry("A", identity="me@example.com", headers={...})` against the
two-hop script. -/
def twoHopGet : Except PyErr Response × PipeState :=
  get_with_retry_fuel none 2 ⟨"A", some "me@example.com", none, true⟩ twoHopInit

/-- `post_with_retry("A", data=..., json=..., identity="me@example.com",
headers={...})` against the two-hop script. -/
def twoHopPost : Except PyErr Response × PipeState :=
  post_with_retry_fuel none 2
    ⟨"A", some "d", some "j", some "me@example.com", none, true⟩ twoHopInit

/-- Calling then fully iterating `stream_with_retry("A", identity="id")`
against the two-hop script. -/
def twoHopStream : Except PyErr (List StreamItem) × PipeState :=
  match stream_with_retry_call none ⟨"A", some "id", none, false⟩ (initState twoHopScript) with
  | (.ok gen, st) => stream_iterate none gen st
  | (.error e, st) => (.error e, st)

/-- An identity resolver that returns `None` (`identity_callable` supplied but
producing nothing). -/
def noneCallable : Unit → Option String := fun _ => none

/-- A `404` response (an arbitrary non-429, non-redirect status). -/
def nf404 : Response := ⟨404, [], "not found"⟩

/-! # Helper lemmas: the purged deque is a filter of the admission history -/

theorem purge_eq_filter (W now : ℤ) (l : List ℤ) (h : l.Pairwise (· ≤ ·)) :
    purge W now l = l.filter (fun a => decide (now - W < a)) := by
  induction l with
  | nil => rfl
  | cons t rest ih =>
    rcases List.pairwise_cons.mp h with ⟨hhead, htail⟩
    by_cases hc : t ≤ now - W
    · rw [List.filter_cons_of_neg (by simp only [decide_eq_true_eq]; omega)]
      simp only [purge, if_pos hc]
      exact ih htail
    · rw [List.filter_cons_of_pos (by simp only [decide_eq_true_eq]; omega)]
      simp only [purge, if_neg hc]
      rw [List.filter_eq_self.mpr]
      intro a ha
      have := hhead a ha
      simp only [decide_eq_true_eq]
      omega

theorem filter_lt_isSuffix (c : ℤ) (l : List ℤ) (h : l.Pairwise (· ≤ ·)) :
    l.filter (fun a => decide (c < a)) <:+ l := by
  induction l with
  | nil => exact List.suffix_refl _
  | cons t rest ih =>
    rcases List.pairwise_cons.mp h with ⟨hhead, htail⟩
    by_cases hc : c < t
    · have hall : List.filter (fun a => decide (c < a)) rest = rest := by
        refine List.filter_eq_self.mpr ?_
        intro a ha
        have := hhead a ha
        simp only [decide_eq_true_eq]
        omega
      rw [List.filter_cons_of_pos (by simp only [decide_eq_true_eq]; omega), hall]
    · rw [List.filter_cons_of_neg (by simp only [decide_eq_true_eq]; omega)]
      exact (ih htail).trans (List.suffix_cons t rest)

/-- The master invariant of `Throttler.get_ticket` over a run: along any
sequence of calls at strictly increasing clock times, (1) the admission
history never holds more than `max_requests` admissions inside any trailing
`time_window` interval, (2) it stays strictly ascending, and (3) the live
deque is the filter of the history at the current cutoff.  Hypotheses carry
the inductive state: `c` is the cutoff of the last purge, `dq` the deque,
`adm` the admission history. -/
theorem runTickets_invariant (rate : RequestRate) (hN : 0 < rate.max_requests)
    (hW : 0 < rate.time_window) :
    ∀ (times : List ℤ) (c : ℤ) (dq adm : List ℤ),
      times.Pairwise (· < ·) →
      (∀ t ∈ times, c ≤ t - rate.time_window) →
      (∀ a ∈ adm, ∀ t ∈ times, a < t) →
      dq = adm.filter (fun a => decide (c < a)) →
      adm.Pairwise (· < ·) →
      (∀ τ : ℤ, (adm.countP (fun a => decide (τ - rate.time_window < a ∧ a ≤ τ)) : ℤ)
          ≤ rate.max_requests) →
      (∀ τ : ℤ, ((times.foldl (ticketStep rate) (dq, adm)).2.countP
          (fun a => decide (τ - rate.time_window < a ∧ a ≤ τ)) : ℤ) ≤ rate.max_requests)
      ∧ (times.foldl (ticketStep rate) (dq, adm)).2.Pairwise (· < ·)
      ∧ ∃ c2 : ℤ, (times.foldl (ticketStep rate) (dq, adm)).1
          = (times.foldl (ticketStep rate) (dq, adm)).2.filter (fun a => decide (c2 < a)) := by
  intro times
  induction times with
  | nil =>
    intro c dq adm _ _ _ hdq hpwA hbound
    exact ⟨hbound, hpwA, c, hdq⟩
  | cons t rest ih =>
    intro c dq adm hpwT hcle hlt hdq hpwA hbound
    rcases List.pairwise_cons.mp hpwT with ⟨hthead, htrest⟩
    have hdqpw : dq.Pairwise (· ≤ ·) := by
      rw [hdq]
      exact (List.Pairwise.filter _ hpwA).imp le_of_lt
    have hct : c ≤ t - rate.time_window := hcle t (List.mem_cons_self t rest)
    have hpurge : purge rate.time_window t dq
        = adm.filter (fun a => decide (t - rate.time_window < a)) := by
      rw [purge_eq_filter _ _ _ hdqpw, hdq, List.filter_filter]
      refine List.filter_congr ?_
      intro a _
      by_cases h1 : t - rate.time_window < a
      · have h2 : c < a := by omega
        simp [h1, h2]
      · simp [h1]
    set P := adm.filter (fun a => decide (t - rate.time_window < a)) with hP
    have hstep : List.foldl (ticketStep rate) (dq, adm) (t :: rest)
        = List.foldl (ticketStep rate) (ticketStep rate (dq, adm) t) rest := rfl
    by_cases hlen : (P.length : ℤ) < rate.max_requests
    · -- admitted: the timestamp is appended at the back of deque and history
      have hts : ticketStep rate (dq, adm) t = (P ++ [t], adm ++ [t]) := by
        simp only [ticketStep, get_ticket, hpurge]
        rw [if_pos hlen]
      rw [hstep, hts]
      refine ih (t - rate.time_window) (P ++ [t]) (adm ++ [t]) htrest ?_ ?_ ?_ ?_ ?_
      · intro r hr
        have := hthead r hr
        omega
      · intro a ha r hr
        rcases List.mem_append.mp ha with ha | ha
        · exact hlt a ha r (List.mem_cons_of_mem t hr)
        · have ha2 : a = t := by simpa using ha
          have := hthead r hr
          omega
      · have hsing : List.filter (fun a => decide (t - rate.time_window < a)) [t] = [t] := by
          have h0 : t - rate.time_window < t := by omega
          simp [h0]
        rw [List.filter_append]
        simp only [hP]
        rw [hsing]
      · refine List.pairwise_append.mpr ⟨hpwA, List.pairwise_singleton _ _, ?_⟩
        intro a ha b hb
        have hb2 : b = t := by simpa using hb
        have := hlt a ha t (List.mem_cons_self t rest)
        omega
      · intro τ
        rw [List.countP_append]
        by_cases hwin : τ - rate.time_window < t ∧ t ≤ τ
        · have hcnt1 : List.countP (fun a => decide (τ - rate.time_window < a ∧ a ≤ τ)) [t] = 1 := by
            simp [List.countP_cons, hwin]
          have hmono : (List.filter (fun a => decide (τ - rate.time_window < a ∧ a ≤ τ)) adm).Sublist
              (List.filter (fun a => decide (t - rate.time_window < a)) adm) := by
            refine List.monotone_filter_right adm ?_
            intro a
            simp only [decide_eq_true_eq]
            intro h1
            omega
          have hle : List.countP (fun a => decide (τ - rate.time_window < a ∧ a ≤ τ)) adm
              ≤ P.length := by
            rw [List.countP_eq_length_filter, hP]
            exact hmono.length_le
          rw [hcnt1]
          push_cast
          omega
        · have hcnt0 : List.countP (fun a => decide (τ - rate.time_window < a ∧ a ≤ τ)) [t] = 0 := by
            simp [List.countP_cons, hwin]
          rw [hcnt0]
          have := hbound τ
          push_cast
          omega
    · -- rejected: the deque is only purged, nothing is admitted
      have hts : ticketStep rate (dq, adm) t = (P, adm) := by
        simp only [ticketStep, get_ticket, hpurge]
        rw [if_neg hlen]
      rw [hstep, hts]
      refine ih (t - rate.time_window) P adm htrest ?_ ?_ hP hpwA hbound
      · intro r hr
        have := hthead r hr
        omega
      · intro a ha r hr
        exact hlt a ha r (List.mem_cons_of_mem t hr)

/-! # Helper lemmas: Python dict assignment (`setHeader`) -/

theorem find_map_set (h : List (String × String)) (k v : String) :
    (h.map (fun p => if p.1 == k then (k, v) else p)).find? (fun p => p.1 == k)
      = if h.any (fun p => p.1 == k) then some (k, v) else none := by
  induction h with
  | nil => rfl
  | cons q rest ih =>
    rw [List.map_cons, List.find?_cons, List.any_cons]
    cases hq : (q.1 == k) with
    | true => simp
    | false =>
      rw [if_neg Bool.false_ne_true, hq]
      simpa using ih

theorem find_map_set_other (h : List (String × String)) (k v k2 : String)
    (hne : (k == k2) = false) :
    (h.map (fun p => if p.1 == k then (k, v) else p)).find? (fun p => p.1 == k2)
      = h.find? (fun p => p.1 == k2) := by
  induction h with
  | nil => rfl
  | cons q rest ih =>
    rw [List.map_cons, List.find?_cons, List.find?_cons]
    cases hq : (q.1 == k) with
    | true =>
      have hqk : q.1 = k := by simpa using hq
      rw [if_pos rfl]
      have h2 : (q.1 == k2) = false := by
        rw [hqk]
        exact hne
      rw [h2]
      have h3 : ((k, v).1 == k2) = false := hne
      rw [h3]
      exact ih
    | false =>
      rw [if_neg Bool.false_ne_true]
      cases hq2 : (q.1 == k2) with
      | true => rfl
      | false => exact ih

/-- `headers[k] = v` makes a lookup of `k` return `v`. -/
theorem headerGet_setHeader_same (h : List (String × String)) (k v : String) :
    headerGet (setHeader h k v) k = some v := by
  rw [setHeader]
  by_cases hany : (h.any (fun p => p.1 == k)) = true
  · rw [if_pos hany, headerGet, find_map_set, if_pos hany]
  · rw [Bool.not_eq_true] at hany
    rw [if_neg (by simp [hany]), headerGet, List.find?_append,
      List.find?_eq_none.mpr (by simpa using List.any_eq_false.mp hany)]
    simp [List.find?_cons]

/-- `headers[k] = v` leaves the entry of every other key unchanged. -/
theorem headerGet_setHeader_other (h : List (String × String)) (k v k2 : String)
    (hne : k2 ≠ k) :
    headerGet (setHeader h k v) k2 = headerGet h k2 := by
  have hne2 : (k == k2) = false := by
    simp only [beq_eq_false_iff_ne, ne_eq]
    exact fun hx => hne hx.symm
  rw [setHeader]
  by_cases hany : (h.any (fun p => p.1 == k)) = true
  · rw [if_pos hany, headerGet, find_map_set_other h k v k2 hne2, headerGet]
  · rw [Bool.not_eq_true] at hany
    rw [if_neg (by simp [hany]), headerGet, List.find?_append, headerGet]
    have hlast : List.find? (fun p => p.1 == k2) [(k, v)] = none := by
      simp [List.find?_cons, hne2]
    rw [hlast]
    cases List.find? (fun p => p.1 == k2) h <;> rfl

/-! # Claim theorems -/

/-- **C2**: for every sequence of `get_ticket()` calls on a `Throttler`
constructed with `RequestRate(max_requests=N, time_window=W)` (so `N, W > 0`),
made at strictly increasing monotonic-clock times: the number of admitted
calls whose admission timestamps lie within any trailing `W`-second interval
`(τ − W, τ]` never exceeds `N`; the admitted-timestamp sequence is strictly
ascending; and the live deque is always a suffix of the admission history
(timestamps are only appended at the back and purged from the front). -/
theorem C2_throttler_sliding_window (rate : RequestRate) (times : List ℤ)
    (hN : 0 < rate.max_requests) (hW : 0 < rate.time_window)
    (hasc : times.Pairwise (· < ·)) :
    (∀ τ : ℤ, ((runTickets rate times).2.countP
        (fun a => decide (τ - rate.time_window < a ∧ a ≤ τ)) : ℤ) ≤ rate.max_requests)
    ∧ (runTickets rate times).2.Pairwise (· < ·)
    ∧ (runTickets rate times).1 <:+ (runTickets rate times).2 := by
  cases times with
  | nil =>
    refine ⟨?_, ?_, ?_⟩
    · intro τ
      simp only [runTickets, List.foldl_nil, List.countP_nil, Int.natCast_zero]
      omega
    · exact List.Pairwise.nil
    · exact List.suffix_refl _
  | cons t0 rest =>
    have hthead := (List.pairwise_cons.mp hasc).1
    have h := runTickets_invariant rate hN hW (t0 :: rest) (t0 - rate.time_window) [] []
      hasc
      (by
        intro t ht
        rcases List.mem_cons.mp ht with h | h
        · omega
        · have := hthead t h
          omega)
      (by intro a ha; exact absurd ha (List.not_mem_nil a))
      rfl
      List.Pairwise.nil
      (by
        intro τ
        simp only [List.countP_nil, Int.natCast_zero]
        omega)
    obtain ⟨hb, hpw, c2, hdq⟩ := h
    refine ⟨hb, hpw, ?_⟩
    show (List.foldl (ticketStep rate) ([], []) (t0 :: rest)).1
      <:+ (List.foldl (ticketStep rate) ([], []) (t0 :: rest)).2
    rw [hdq]
    exact filter_lt_isSuffix c2 _ (hpw.imp le_of_lt)

/-- Witness for C2: the concrete rate `8 requests / 1 second` of the source
and the call times `0, 1, 2`. -/
theorem C2_throttler_sliding_window_witness :
    (0 < edgarRate.max_requests ∧ 0 < edgarRate.time_window
      ∧ ([0, 1, 2] : List ℤ).Pairwise (· < ·))
    ∧ ((∀ τ : ℤ, ((runTickets edgarRate [0, 1, 2]).2.countP
          (fun a => decide (τ - edgarRate.time_window < a ∧ a ≤ τ)) : ℤ)
            ≤ edgarRate.max_requests)
      ∧ (runTickets edgarRate [0, 1, 2]).2.Pairwise (· < ·)
      ∧ (runTickets edgarRate [0, 1, 2]).1 <:+ (runTickets edgarRate [0, 1, 2]).2) :=
  ⟨⟨by decide, by decide, by decide⟩,
    C2_throttler_sliding_window edgarRate [0, 1, 2] (by decide) (by decide) (by decide)⟩

/-- **C8**: `RequestRate.__init__` raises `ValueError` at construction time
when `max_requests ≤ 0` or `time_window ≤ 0`; for strictly positive arguments
it succeeds, storing both fields unchanged (the resulting value is immutable:
no operation of the model rewrites its fields). -/
theorem C8_request_rate_validation (mr tw : ℤ) :
    (mr ≤ 0 → RequestRate.init mr tw = .error "max_requests must be a positive integer")
    ∧ (0 < mr → tw ≤ 0 →
        RequestRate.init mr tw = .error "time_window must be a positive integer")
    ∧ (0 < mr → 0 < tw → RequestRate.init mr tw = .ok ⟨mr, tw⟩) := by
  refine ⟨?_, ?_, ?_⟩
  · intro h
    rw [RequestRate.init, if_pos h]
  · intro h1 h2
    rw [RequestRate.init, if_neg (by omega), if_pos h2]
  · intro h1 h2
    rw [RequestRate.init, if_neg (by omega), if_neg (by omega)]

/-- Witness for C8 at `(0, 5)`, `(3, 0)` and `(3, 5)`. -/
theorem C8_request_rate_validation_witness :
    ((0 : ℤ) ≤ 0
      ∧ RequestRate.init 0 5 = .error "max_requests must be a positive integer")
    ∧ ((0 : ℤ) < 3 ∧ (0 : ℤ) ≤ 0
      ∧ RequestRate.init 3 0 = .error "time_window must be a positive integer")
    ∧ ((0 : ℤ) < 3 ∧ (0 : ℤ) < 5 ∧ RequestRate.init 3 5 = .ok ⟨3, 5⟩) :=
  ⟨⟨by decide, (C8_request_rate_validation 0 5).1 (by decide)⟩,
    ⟨by decide, by decide, (C8_request_rate_validation 3 0).2.1 (by decide) (by decide)⟩,
    ⟨by decide, by decide, (C8_request_rate_validation 3 5).2.2 (by decide) (by decide)⟩⟩

/-- **C3**: for the retry layer of the decorated pipeline (`attempts = 6`
total invocations, retrying only `httpx.RequestError`), with an attempt
function that raises a transient network error exactly `k` times and then
succeeds: if `k < attempts` the call succeeds after exactly `k + 1`
invocations; if `attempts ≤ k` (transport script starting with `attempts`
transient errors, arbitrary continuation) the call fails after exactly
`attempts` invocations, propagating the last transient error, with the
remaining script untouched. -/
theorem C3_retry_attempt_counts :
    (∀ k : ℕ, k < attempts →
      (get_with_retry_fuel none attempts ⟨"u", some "id", none, false⟩
          (initState (List.replicate k (.netError "boom") ++ [.resp ok200]))).1 = .ok ok200
      ∧ (get_with_retry_fuel none attempts ⟨"u", some "id", none, false⟩
          (initState (List.replicate k (.netError "boom") ++ [.resp ok200]))).2.attemptCount
        = k + 1)
    ∧ (∀ rest : List TransportEvent,
      (get_with_retry_fuel none attempts ⟨"u", some "id", none, false⟩
          (initState (List.replicate attempts (.netError "boom") ++ rest))).1
        = .error (.requestError "boom")
      ∧ (get_with_retry_fuel none attempts ⟨"u", some "id", none, false⟩
          (initState (List.replicate attempts (.netError "boom") ++ rest))).2.attemptCount
        = attempts
      ∧ (get_with_retry_fuel none attempts ⟨"u", some "id", none, false⟩
          (initState (List.replicate attempts (.netError "boom") ++ rest))).2.script = rest) := by
  constructor
  · intro k hk
    have hk6 : k < 6 := hk
    interval_cases k <;> exact ⟨rfl, rfl⟩
  · intro rest
    exact ⟨rfl, rfl, rfl⟩

/-- Witness for C3 at `k = 2` (success after 3 invocations) and at a script
of `attempts` transient failures (failure after exactly 6 invocations). -/
theorem C3_retry_attempt_counts_witness :
    (2 < attempts
      ∧ (get_with_retry_fuel none attempts ⟨"u", some "id", none, false⟩
          (initState (List.replicate 2 (.netError "boom") ++ [.resp ok200]))).1 = .ok ok200
      ∧ (get_with_retry_fuel none attempts ⟨"u", some "id", none, false⟩
          (initState (List.replicate 2 (.netError "boom") ++ [.resp ok200]))).2.attemptCount = 3)
    ∧ ((get_with_retry_fuel none attempts ⟨"u", some "id", none, false⟩
          (initState (List.replicate attempts (.netError "boom") ++ []))).1
        = .error (.requestError "boom")
      ∧ (get_with_retry_fuel none attempts ⟨"u", some "id", none, false⟩
          (initState (List.replicate attempts (.netError "boom") ++ []))).2.attemptCount
        = attempts) :=
  ⟨⟨by decide, (C3_retry_attempt_counts.1 2 (by decide)).1,
      (C3_retry_attempt_counts.1 2 (by decide)).2⟩,
    (C3_retry_attempt_counts.2 []).1, (C3_retry_attempt_counts.2 []).2.1⟩

/-- **C7**: a transport response whose status is neither `429` nor a redirect
(`301`/`302`) is returned unchanged by `get_with_retry` and `post_with_retry`
— no error is raised whatever the status (e.g. 404 or 500) — and exactly one
transport event is consumed. -/
theorem C7_pass_through (r : Response) (rest : List TransportEvent)
    (url idv : String) (env : Option String) (fuel : ℕ)
    (data json : Option String)
    (h429 : r.status_code ≠ 429) (h301 : r.status_code ≠ 301) (h302 : r.status_code ≠ 302) :
    (get_with_retry_fuel env (fuel + 1) ⟨url, some idv, none, false⟩
        (initState (.resp r :: rest))).1 = .ok r
    ∧ (get_with_retry_fuel env (fuel + 1) ⟨url, some idv, none, false⟩
        (initState (.resp r :: rest))).2.script = rest
    ∧ (post_with_retry_fuel env (fuel + 1) ⟨url, data, json, some idv, none, false⟩
        (initState (.resp r :: rest))).1 = .ok r
    ∧ (post_with_retry_fuel env (fuel + 1) ⟨url, data, json, some idv, none, false⟩
        (initState (.resp r :: rest))).2.script = rest := by
  have hb429 : (r.status_code == 429) = false := by
    simpa using h429
  have hred : is_redirect r = false := by
    rw [is_redirect]
    have hb301 : (r.status_code == 301) = false := by simpa using h301
    have hb302 : (r.status_code == 302) = false := by simpa using h302
    rw [hb301, hb302]
    rfl
  refine ⟨?_, ?_, ?_, ?_⟩ <;>
    simp [get_with_retry_fuel, get_go, post_with_retry_fuel, post_go,
      with_identity_step, resolve_identity, setHeader, throttle_step, wait_for_ticket,
      get_ticket, purge, transportCall, initState, update_metrics, edgarRate, attempts,
      max_requests_per_second, hb429, hred, isRequestError]

/-- Witness for C7 at a concrete 404 response. -/
theorem C7_pass_through_witness :
    (nf404.status_code ≠ 429 ∧ nf404.status_code ≠ 301 ∧ nf404.status_code ≠ 302)
    ∧ ((get_with_retry_fuel none (0 + 1) ⟨"u", some "id", none, false⟩
          (initState (.resp nf404 :: []))).1 = .ok nf404
      ∧ (get_with_retry_fuel none (0 + 1) ⟨"u", some "id", none, false⟩
          (initState (.resp nf404 :: []))).2.script = []
      ∧ (post_with_retry_fuel none (0 + 1) ⟨"u", none, none, some "id", none, false⟩
          (initState (.resp nf404 :: []))).1 = .ok nf404
      ∧ (post_with_retry_fuel none (0 + 1) ⟨"u", none, none, some "id", none, false⟩
          (initState (.resp nf404 :: []))).2.script = []) :=
  ⟨⟨by decide, by decide, by decide⟩,
    C7_pass_through nf404 [] "u" "id" none 0 none none
      (by decide) (by decide) (by decide)⟩

/-- **C1 counterexample**: with a transport returning `429` on the first
attempt and `200` on the second (`N = 2 ≤ attempts`), `get_with_retry` does
*not* succeed: `TooManyRequestsError` surfaces to the caller after a single
attempt (the second transport event is never consumed), because the retry
decorator is configured `on=httpx.RequestError` and `TooManyRequestsError`
is a plain `Exception`. -/
theorem C1_counterexample :
    2 ≤ attempts
    ∧ (get_with_retry_fuel none 6 ⟨"A", some "id", none, false⟩
        (initState [.resp r429, .resp ok200])).1 = .error (.tooManyRequests "A")
    ∧ (get_with_retry_fuel none 6 ⟨"A", some "id", none, false⟩
        (initState [.resp r429, .resp ok200])).2.script = [.resp ok200]
    ∧ (get_with_retry_fuel none 6 ⟨"A", some "id", none, false⟩
        (initState [.resp r429, .resp ok200])).2.attemptCount = 1 :=
  ⟨by decide, rfl, rfl, rfl⟩

/-- **C1 (amended)**: in every pipeline entry point (get/post, sync and
async, and the stream body at iteration time), a transport status `429`
raises `TooManyRequestsError{url}` which the retry layer does **not** catch
(it retries only `httpx.RequestError`): the error surfaces to the caller on
the first 429, after exactly one attempt, with the rest of the transport
script unconsumed. -/
theorem C1_amended (r : Response) (rest : List TransportEvent)
    (url idv : String) (env : Option String) (fuel : ℕ) (data json : Option String)
    (h : r.status_code = 429) :
    (get_with_retry_fuel env (fuel + 1) ⟨url, some idv, none, false⟩
        (initState (.resp r :: rest))).1 = .error (.tooManyRequests url)
    ∧ (get_with_retry_fuel env (fuel + 1) ⟨url, some idv, none, false⟩
        (initState (.resp r :: rest))).2.attemptCount = 1
    ∧ (get_with_retry_fuel env (fuel + 1) ⟨url, some idv, none, false⟩
        (initState (.resp r :: rest))).2.script = rest
    ∧ (get_with_retry_async_fuel env (fuel + 1) ⟨url, some idv, none, false⟩
        (initState (.resp r :: rest))).1 = .error (.tooManyRequests url)
    ∧ (post_with_retry_fuel env (fuel + 1) ⟨url, data, json, some idv, none, false⟩
        (initState (.resp r :: rest))).1 = .error (.tooManyRequests url)
    ∧ (post_with_retry_fuel env (fuel + 1) ⟨url, data, json, some idv, none, false⟩
        (initState (.resp r :: rest))).2.attemptCount = 1
    ∧ (post_with_retry_async_fuel env (fuel + 1) ⟨url, data, json, some idv, none, false⟩
        (initState (.resp r :: rest))).1 = .error (.tooManyRequests url)
    ∧ (stream_iterate env ⟨url, some idv, none, true⟩
        (initState (.resp r :: rest))).1 = .error (.tooManyRequests url) := by
  have hb429 : (r.status_code == 429) = true := by simpa using h
  refine ⟨?_, ?_, ?_, ?_, ?_, ?_, ?_, ?_⟩ <;>
    simp [get_with_retry_fuel, get_with_retry_async_fuel, post_with_retry_async_fuel,
      get_go, post_with_retry_fuel, post_go, stream_iterate,
      with_identity_step, resolve_identity, setHeader, throttle_step, wait_for_ticket,
      get_ticket, purge, transportCall, initState, update_metrics, edgarRate, attempts,
      max_requests_per_second, hb429, isRequestError]

/-- Witness for the amended C1 at the concrete `429` response. -/
theorem C1_amended_witness :
    r429.status_code = 429
    ∧ (get_with_retry_fuel none (0 + 1) ⟨"A", some "id", none, false⟩
        (initState (.resp r429 :: [.resp ok200]))).1 = .error (.tooManyRequests "A")
    ∧ (get_with_retry_fuel none (0 + 1) ⟨"A", some "id", none, false⟩
        (initState (.resp r429 :: [.resp ok200]))).2.script = [.resp ok200]
    ∧ (stream_iterate none ⟨"A", some "id", none, true⟩
        (initState (.resp r429 :: [.resp ok200]))).1 = .error (.tooManyRequests "A") :=
  ⟨by decide,
    (C1_amended r429 [.resp ok200] "A" "id" none 0 none none (by decide)).1,
    (C1_amended r429 [.resp ok200] "A" "id" none 0 none none (by decide)).2.2.1,
    (C1_amended r429 [.resp ok200] "A" "id" none 0 none none (by decide)).2.2.2.2.2.2.2⟩

/-- **C4 counterexample**: with no explicit identity, an `identity_callable`
that returns `None`, and `EDGAR_IDENTITY` set, the claimed precedence chain
(explicit, then callable result, then environment variable) would resolve to
the environment value, but the code raises `IdentityNotSetException`: the
environment variable is consulted only when `identity_callable` is absent. -/
theorem C4_counterexample :
    resolve_identity none (some noneCallable) (some "env@example.com") = none
    ∧ resolve_identity_claimOrder none (some noneCallable) (some "env@example.com")
        = some "env@example.com"
    ∧ (get_with_retry_fuel (some "env@example.com") 6 ⟨"A", none, some noneCallable, false⟩
        (initState [.resp ok200])).1 = .error .identityNotSet :=
  ⟨rfl, rfl, rfl⟩

/-- **C4 (amended)**: identity resolution uses the explicit argument first;
otherwise, when `identity_callable` is supplied its result is final (the
environment variable is not consulted, so a callable returning nothing makes
the call fail even when `EDGAR_IDENTITY` is set); only when the callable is
absent is the environment variable read.  Whenever resolution yields nothing,
every entry point raises the identity error before any rate-limiter
interaction or transport call (the state is unchanged apart from the
ghost attempt counter recording the single, unretried invocation). -/
theorem C4_amended (env : Option String) (args : GetArgs) (pargs : PostArgs)
    (st : PipeState) (fuel : ℕ)
    (hg : resolve_identity args.identity args.identity_callable env = none)
    (hp : resolve_identity pargs.identity pargs.identity_callable env = none) :
    get_with_retry_fuel env (fuel + 1) args st
      = (.error .identityNotSet, { st with attemptCount := st.attemptCount + 1 })
    ∧ post_with_retry_fuel env (fuel + 1) pargs st
      = (.error .identityNotSet, { st with attemptCount := st.attemptCount + 1 })
    ∧ stream_with_retry_call env args st = (.error .identityNotSet, st) := by
  refine ⟨?_, ?_, ?_⟩ <;>
    simp [get_with_retry_fuel, get_go, post_with_retry_fuel, post_go,
      stream_with_retry_call, with_identity_step, hg, hp, attempts, isRequestError]

/-- Witness for the amended C4: all three identity sources absent. -/
theorem C4_amended_witness :
    resolve_identity none none none = none
    ∧ (get_with_retry_fuel none (0 + 1) ⟨"u", none, none, false⟩ (initState [])
        = (.error .identityNotSet,
            { initState [] with attemptCount := (initState []).attemptCount + 1 })
      ∧ post_with_retry_fuel none (0 + 1) ⟨"u", none, none, none, none, false⟩ (initState [])
        = (.error .identityNotSet,
            { initState [] with attemptCount := (initState []).attemptCount + 1 })
      ∧ stream_with_retry_call none ⟨"u", none, none, false⟩ (initState [])
        = (.error .identityNotSet, initState [])) :=
  ⟨rfl, C4_amended none ⟨"u", none, none, false⟩ ⟨"u", none, none, none, none, false⟩
    (initState []) 0 rfl rfl⟩

/-- **C5**: with a mocked transport returning a `302` with `Location: B` and
then a `200` on the request to `B`, `get_with_retry` (and `post_with_retry`,
with `data`/`json` preserved by the recursive call) returns the `200`
response, two rate-limiter tickets are consumed (one per hop), both hops hit
the transport in order `A` then `B`, and both carry the same resolved
`User-Agent` identity. -/
theorem C5_redirect_follow :
    twoHopGet.1 = .ok ok200
    ∧ twoHopGet.2.admissionLog.length = 2
    ∧ twoHopGet.2.transportLog.map Prod.fst = ["A", "B"]
    ∧ twoHopGet.2.transportLog.map (fun e => headerGet e.2 "User-Agent")
        = [some "me@example.com", some "me@example.com"]
    ∧ twoHopPost.1 = .ok ok200
    ∧ twoHopPost.2.admissionLog.length = 2
    ∧ twoHopPost.2.transportLog.map Prod.fst = ["A", "B"] :=
  ⟨rfl, rfl, rfl, rfl, rfl, rfl, rfl⟩

/-- **C6**: iterating `stream_with_retry` over a transport that answers with
a `302` (`Location: B`) yields exactly one item, and that item is the inner
decorated call's generator object — not a `Response` chunk (`yield` rather
than `yield from` at source line 233); both hops' tickets are consumed at
generator-creation time. -/
theorem C6_stream_item_is_generator :
    twoHopStream.1 = .ok [.nestedGenerator "B"]
    ∧ (StreamItem.nestedGenerator "B").isResponse = false
    ∧ twoHopStream.2.admissionLog.length = 2 :=
  ⟨rfl, rfl, rfl⟩

set_option maxRecDepth 40000 in
/-- **C9**: each decorated entry point owns an independent `Throttler`: an
admission through one entry point never changes another entry point's deque,
and from fresh throttlers `8` admissions through each of the five entry
points at one instant all succeed — `5 × max_requests_per_second` admissions
inside a single window. -/
theorem C9_independent_throttlers :
    (∀ (e e2 : EntryPoint) (now : ℤ) (reg : ThrottlerRegistry), e ≠ e2 →
      (registryAdmit e now reg).2.deq e2 = reg.deq e2)
    ∧ (registryBurst.1 : ℤ) = 5 * max_requests_per_second
    ∧ registryBurst.2.get_sync = List.replicate 8 0
    ∧ registryBurst.2.get_async = List.replicate 8 0
    ∧ registryBurst.2.stream_sync = List.replicate 8 0
    ∧ registryBurst.2.post_sync = List.replicate 8 0
    ∧ registryBurst.2.post_async = List.replicate 8 0 := by
  refine ⟨?_, by decide, rfl, rfl, rfl, rfl, rfl⟩
  intro e e2 now reg hne
  cases e <;> cases e2 <;> first | exact absurd rfl hne | rfl

/-- Witness for C9: an admission through the sync-get throttler leaves the
sync-post deque untouched. -/
theorem C9_independent_throttlers_witness :
    EntryPoint.getSync ≠ EntryPoint.postSync
    ∧ (registryAdmit .getSync 0 emptyRegistry).2.deq .postSync
        = emptyRegistry.deq .postSync :=
  ⟨by decide,
    C9_independent_throttlers.1 .getSync .postSync 0 emptyRegistry (by decide)⟩

/-- **C10**: when the caller passes a headers mapping, `with_identity`
mutates that mapping in place: afterwards its `"User-Agent"` entry is the
resolved identity while every other entry is unchanged, and the same (now
mutated) mapping object is forwarded to the transport on the original
request and on every redirect hop. -/
theorem C10_headers_mutated_in_place :
    (∀ (h : List (String × String)) (idv k : String), k ≠ "User-Agent" →
      headerGet (setHeader h "User-Agent" idv) "User-Agent" = some idv
      ∧ headerGet (setHeader h "User-Agent" idv) k = headerGet h k)
    ∧ twoHopGet.2.headerObj = [("Accept", "text/html"), ("User-Agent", "me@example.com")]
    ∧ twoHopGet.2.transportLog
        = [("A", [("Accept", "text/html"), ("User-Agent", "me@example.com")]),
           ("B", [("Accept", "text/html"), ("User-Agent", "me@example.com")])] := by
  refine ⟨?_, rfl, rfl⟩
  intro h idv k hk
  exact ⟨headerGet_setHeader_same h "User-Agent" idv,
    headerGet_setHeader_other h "User-Agent" idv k hk⟩

/-- Witness for C10 at the caller mapping `{"Accept": "x"}`. -/
theorem C10_headers_mutated_in_place_witness :
    "Accept" ≠ "User-Agent"
    ∧ headerGet (setHeader [("Accept", "x")] "User-Agent" "id") "User-Agent" = some "id"
    ∧ headerGet (setHeader [("Accept", "x")] "User-Agent" "id") "Accept"
        = headerGet [("Accept", "x")] "Accept" :=
  ⟨by decide,
    (C10_headers_mutated_in_place.1 [("Accept", "x")] "id" "Accept" (by decide)).1,
    (C10_headers_mutated_in_place.1 [("Accept", "x")] "id" "Accept" (by decide)).2⟩

end EdgarHttp
